import Mathlib

/-!
Verification of the tdapiclient authentication subsystem
(`tdapiclient/auth.py`, `tdapiclient/base.py`).

The Python functions are shallowly embedded as pure Lean functions:
network responses (`requests.post` results) are inputs, clock readings
(`datetime.now` / `datetime.utcnow`) are explicit integer parameters
(seconds), raised exceptions become `Except` errors, and outgoing
HTTP traffic is modelled as explicit effect lists.
-/

/-! ## Shared types (`tdapiclient/base.py`) -/

/-- Mirrors `TDAuthContext` (base.py lines 18-23): all four fields are
mandatory strings / a timestamp; timestamps are modelled as seconds. -/
structure TDAuthContext where
  client_id : String
  refresh_token : String
  access_token : String
  access_token_valid_until : Int
deriving DecidableEq

/-- `TDBase.url_base` (base.py line 27). -/
def url_base : String := "https://api.tdameritrade.com/v1"

/-- Exceptions that the embedded code can raise.  `httpError` stands for
`requests.exceptions.HTTPError` raised by `Response.raise_for_status`;
`authenticationError` stands for `TDAPIClientAuthenticationException`. -/
inductive Exc where
  | httpError (status : Nat)
  | authenticationError (msg : String)
deriving DecidableEq

/-- The token-endpoint JSON body used by the auth code: the fields
`access_token` and `expires_in` (already through `int(...)`). -/
structure TokenResponseJson where
  access_token : String
  expires_in : Int
deriving DecidableEq

/-- An HTTP response from the token endpoint: a status code plus the
parsed JSON body (`res.json()`). -/
structure HttpResponse where
  status : Nat
  json : TokenResponseJson
deriving DecidableEq

deriving instance DecidableEq for Except

/-- `requests.Response.raise_for_status`: raises `HTTPError` exactly for
status codes in 400..599 (4xx client errors and 5xx server errors);
any other status, 3xx included, passes silently. -/
def raise_for_status (res : HttpResponse) : Except Exc Unit :=
  if 400 ≤ res.status ∧ res.status < 600 then .error (.httpError res.status) else .ok ()

/-! ## Token refresh (`auth.py` lines 29-67) -/

/-- The form body of the refresh-token POST (auth.py lines 59-63). -/
structure RefreshGrantData where
  grant_type : String
  refresh_token : String
  client_id : String
deriving DecidableEq

/-- The `data` dict built by `get_access_token` (auth.py lines 52-63),
including the local rebinding `client_id = client_id + "@AMER.OAUTHAP"`. -/
def get_access_token_data (client_id refresh_token : String) : RefreshGrantData :=
  let client_id := client_id ++ "@AMER.OAUTHAP"
  { grant_type := "refresh_token", refresh_token := refresh_token, client_id := client_id }

/-- `get_access_token` (auth.py lines 52-67): POSTs the refresh grant and
returns `res.json()` after `res.raise_for_status()`.  The response is an
input; the POST itself is recorded by `get_access_token_effects`. -/
def get_access_token (client_id refresh_token : String) (res : HttpResponse) :
    Except Exc TokenResponseJson :=
  match raise_for_status res with
  | .error e => .error e
  | .ok _ =>
    let _ := get_access_token_data client_id refresh_token
    .ok res.json

/-- `authenticate` (auth.py lines 29-49): fetches a fresh access token and
builds the context with `valid_until = now + expires_in`. -/
def authenticate (client_id refresh_token : String) (now : Int) (res : HttpResponse) :
    Except Exc TDAuthContext :=
  match get_access_token client_id refresh_token res with
  | .error e => .error e
  | .ok auth_ret =>
    .ok { client_id := client_id,
          refresh_token := refresh_token,
          access_token := auth_ret.access_token,
          access_token_valid_until := now + auth_ret.expires_in }

/-! ## Outgoing-traffic model for `TDBase` (`base.py` lines 33-107) -/

/-- An outgoing HTTP action: a token-endpoint POST (the refresh exchange in
`get_access_token`) or an authenticated API request (`TDBase._call`). -/
inductive Effect where
  | tokenPost (url : String) (data : RefreshGrantData)
  | apiRequest (method : String) (url : String) (headers : List (String × String))
deriving DecidableEq

/-- Whether an effect is a token-endpoint POST. -/
def isTokenPost : Effect → Bool
  | .tokenPost _ _ => true
  | .apiRequest _ _ _ => false

/-- The outgoing traffic of one `get_access_token` call (auth.py line 65):
exactly one POST to the token endpoint. -/
def get_access_token_effects (client_id refresh_token : String) : List Effect :=
  [.tokenPost (url_base ++ "/oauth2/token") (get_access_token_data client_id refresh_token)]

/-- `TDBase._auth_headers` (base.py lines 33-34): a pure read of the cached
access token, no network traffic. -/
def TDBase_auth_headers (ctx : TDAuthContext) : List (String × String) :=
  [("Authorization", "Bearer " ++ ctx.access_token)]

/-- The outgoing traffic of one `TDBase._call` (base.py lines 94-107): one
API request carrying `_auth_headers`; no token-endpoint POST occurs. -/
def TDBase_call_effects (ctx : TDAuthContext) (method path : String) : List Effect :=
  [.apiRequest method (url_base ++ path) (TDBase_auth_headers ctx)]

/-- The concatenated outgoing traffic of `n` repeated `TDBase._call`
invocations against the same cached context. -/
def repeatedCallEffects (ctx : TDAuthContext) (method path : String) : Nat → List Effect
  | 0 => []
  | n + 1 => TDBase_call_effects ctx method path ++ repeatedCallEffects ctx method path n

/-! ## Query-string parsing (`urllib.parse`, as used by auth.py) -/

/-- Python `str.split(sep)` for a one-character separator. -/
def splitOnChar (sep : Char) (l : List Char) : List (List Char) :=
  match l with
  | [] => [[]]
  | c :: rest =>
    match splitOnChar sep rest with
    | cur :: tail => if c = sep then [] :: cur :: tail else (c :: cur) :: tail
    | [] => [[c]]

/-- Splits a character list at the first occurrence of `sep`, returning
the parts before and after it, or `none` when `sep` does not occur
(Python `str.partition` / `str.split(sep, 1)`). -/
def splitFirst (sep : Char) : List Char → Option (List Char × List Char)
  | [] => none
  | c :: rest =>
    if c = sep then some ([], rest)
    else
      match splitFirst sep rest with
      | some (a, b) => some (c :: a, b)
      | none => none

/-- `self.path.partition("?")` (auth.py line 96), keeping the parts before
and after the first question mark. -/
def partitionQuery (s : String) : String × String :=
  match splitFirst '?' s.data with
  | none => (s, "")
  | some p => (⟨p.1⟩, ⟨p.2⟩)

/-- Hexadecimal digit test used by percent-decoding. -/
def isHexDigit (c : Char) : Bool :=
  (48 ≤ c.toNat && c.toNat ≤ 57) || (65 ≤ c.toNat && c.toNat ≤ 70) ||
    (97 ≤ c.toNat && c.toNat ≤ 102)

/-- Value of a hexadecimal digit character. -/
def hexVal (c : Char) : Nat :=
  if 48 ≤ c.toNat ∧ c.toNat ≤ 57 then c.toNat - 48
  else if 65 ≤ c.toNat ∧ c.toNat ≤ 70 then c.toNat - 55
  else c.toNat - 87

/-- Percent-decoding worker: a `%` followed by two hex digits decodes to
that byte; an invalid escape keeps the `%` verbatim and scanning resumes
right after it (`urllib.parse.unquote` semantics).  The fuel argument
(at least one unit per consumed character) only makes the recursion
structural; `percentDecodeAux_fuel` shows every sufficient fuel value
gives the same result. -/
def percentDecodeAux : Nat → List Char → List Char
  | 0, l => l
  | _ + 1, [] => []
  | fuel + 1, ch :: rest =>
    if ch = '%' then
      match rest with
      | a :: b :: rest2 =>
        if isHexDigit a && isHexDigit b then
          Char.ofNat (16 * hexVal a + hexVal b) :: percentDecodeAux fuel rest2
        else
          ch :: percentDecodeAux fuel rest
      | _ => ch :: percentDecodeAux fuel rest
    else
      ch :: percentDecodeAux fuel rest

/-- Percent-decoding as in `urllib.parse.unquote`, seeded with enough fuel
to consume the whole input. -/
def percentDecodeChars (l : List Char) : List Char := percentDecodeAux l.length l

/-- The `+` to space replacement performed by `urllib.parse.unquote_plus`. -/
def plusToSpace (c : Char) : Char := if c = '+' then ' ' else c

/-- `urllib.parse.unquote_plus`: replace `+` by a space, then percent-decode. -/
def unquote_plus (s : String) : String :=
  ⟨percentDecodeChars (s.data.map plusToSpace)⟩

/-- `urllib.parse.parse_qsl` with default arguments, as `parse_qs`
(auth.py line 101) uses it: split on `&`, split each pair at the first
`=`, skip pairs without `=` and pairs with a blank value
(`keep_blank_values=False`), and unquote names and values. -/
def parse_qsl (query_string : String) : List (String × String) :=
  (splitOnChar '&' query_string.data).filterMap fun nv =>
    if nv = [] then none
    else
      match splitFirst '=' nv with
      | none => none
      | some (name, value) =>
        if value = [] then none
        else some (unquote_plus ⟨name⟩, unquote_plus ⟨value⟩)

/-- `qs_parsed[key]` for the dict-of-lists built by `parse_qs`: all values
carrying `key`, in query order; the empty list means `key not in qs_parsed`. -/
def qsLookup (qs_parsed : List (String × String)) (key : String) : List String :=
  (qs_parsed.filter fun kv => kv.1 == key).map fun kv => kv.2

/-! ## Callback handler (`auth.py` lines 70-131) -/

/-- Mirrors `AuthResponseContext` (auth.py lines 70-74).  The `code` field
is typed as the value `do_GET` actually assigns at line 125: the full
`parse_qs` list (the dataclass annotation promises `Optional[str]`,
which line 125 does not honour). -/
structure AuthResponseContext where
  code : Option (List String) := none
  error : Option String := none
  error_description : Option String := none
deriving DecidableEq

/-- A fresh `AuthResponseContext()` (auth.py line 188). -/
def initialContext : AuthResponseContext := {}

/-- The HTTP reply the handler sends back to the browser:
`send_error(status)` or `_send_text_response` (always status 200). -/
inductive HandlerResponse where
  | sendError (status : Nat)
  | sendText (status : Nat) (text : String)
deriving DecidableEq

/-- Python `f"...{x}..."` formatting of an `Optional[str]`. -/
def optStr : Option String → String
  | some s => s
  | none => "None"

/-- `AuthResponseHandler.do_GET` (auth.py lines 94-131): splits the request
target into path and query string, 404s off-root or query-less requests,
records `error`/`error_description` (error branch first), 400s queries
without exactly one `code` value, and otherwise records the code list. -/
def do_GET (context : AuthResponseContext) (reqPath : String) :
    AuthResponseContext × HandlerResponse :=
  let path := (partitionQuery reqPath).1
  let query_string := (partitionQuery reqPath).2
  if path ≠ "/" ∨ query_string = "" then
    (context, .sendError 404)
  else
    let qs_parsed := parse_qsl query_string
    if qsLookup qs_parsed "error" ≠ [] then
      let err := (qsLookup qs_parsed "error").headD ""
      let context1 : AuthResponseContext :=
        { context with
          error := some err,
          error_description :=
            if qsLookup qs_parsed "error_description" ≠ [] then
              some ((qsLookup qs_parsed "error_description").headD "")
            else context.error_description }
      (context1,
       .sendText 200
         ("Got authentication error.\nerror=" ++ err ++ "\nerror_description=" ++
           optStr context1.error_description ++ "\n"))
    else if (qsLookup qs_parsed "code").length ≠ 1 then
      (context, .sendError 400)
    else
      ({ context with code := some (qsLookup qs_parsed "code") },
       .sendText 200
         "Got authentication code.\nProceed in calling Python program.\nYou can close this browser session.\n")

/-- The guard of the wait loop `while context.code is None and
context.error is None` (auth.py line 208): true when the loop stops. -/
def loopDone (context : AuthResponseContext) : Bool :=
  context.code.isSome || context.error.isSome

/-- The wait loop of `get_refresh_token` (auth.py lines 208-210) run over a
finite stream of incoming callback requests: each iteration re-checks the
guard and then handles one request. -/
def runCallbacks (context : AuthResponseContext) : List String → AuthResponseContext
  | [] => context
  | r :: rs =>
    if loopDone context then context
    else runCallbacks (do_GET context r).1 rs

/-! ## Interactive flow pieces (`auth.py` lines 134-235) -/

/-- The error check after the wait loop (auth.py lines 212-216): raises
`TDAPIClientAuthenticationException` carrying the recorded error and
description formatted exactly as the f-string does. -/
def get_refresh_token_check_error (context : AuthResponseContext) : Except Exc Unit :=
  match context.error with
  | some e =>
    .error (.authenticationError
      ("Error during authentication. error=" ++ e ++ ", error_description=" ++
        optStr context.error_description))
  | none => .ok ()

/-- The certificate parameters passed to `x509.CertificateBuilder`
(auth.py lines 161-182).  `utcnow1` and `utcnow2` are the two separate
`datetime.utcnow()` readings (lines 175 and 178), in seconds;
`timedelta(minutes=5)` is 300 seconds. -/
structure CertParams where
  subjectCommonName : String
  issuerCommonName : String
  notValidBefore : Int
  notValidAfter : Int
deriving DecidableEq

/-- Builds the certificate parameters of `get_refresh_token`: subject and
issuer common name are the f-string `"{host}:{port}"`. -/
def get_refresh_token_cert (server_listen_host : String) (server_listen_port : Nat)
    (utcnow1 utcnow2 : Int) : CertParams :=
  { subjectCommonName := server_listen_host ++ ":" ++ toString server_listen_port,
    issuerCommonName := server_listen_host ++ ":" ++ toString server_listen_port,
    notValidBefore := utcnow1,
    notValidAfter := utcnow2 + 5 * 60 }

/-- UTF-8 encoding of one character as its byte values. -/
def utf8Bytes (c : Char) : List Nat :=
  let n := c.toNat
  if n < 128 then [n]
  else if n < 2048 then [192 ||| (n >>> 6), 128 ||| (n &&& 63)]
  else if n < 65536 then
    [224 ||| (n >>> 12), 128 ||| ((n >>> 6) &&& 63), 128 ||| (n &&& 63)]
  else
    [240 ||| (n >>> 18), 128 ||| ((n >>> 12) &&& 63), 128 ||| ((n >>> 6) &&& 63),
      128 ||| (n &&& 63)]

/-- The bytes `urllib.parse.quote` leaves unescaped with the default
`safe="/"`: ASCII letters, digits, `_`, `.`, `-`, `~` and `/`. -/
def quoteUnreservedByte (b : Nat) : Bool :=
  (65 ≤ b && b ≤ 90) || (97 ≤ b && b ≤ 122) || (48 ≤ b && b ≤ 57) ||
    b == 95 || b == 46 || b == 45 || b == 126 || b == 47

/-- Uppercase hexadecimal digit character for a value below 16. -/
def hexUpper (n : Nat) : Char :=
  if n < 10 then Char.ofNat (48 + n) else Char.ofNat (55 + n)

/-- `urllib.parse.quote` on one byte: kept verbatim when unreserved,
percent-escaped with uppercase hex digits otherwise. -/
def quoteByte (b : Nat) : List Char :=
  if quoteUnreservedByte b then [Char.ofNat b] else ['%', hexUpper (b / 16), hexUpper (b % 16)]

/-- `urllib.parse.quote` with the default `safe="/"` (imported as `q` in
auth.py line 11): percent-escapes the UTF-8 bytes of the string. -/
def pyQuote (s : String) : String :=
  ⟨((s.data.flatMap utf8Bytes)).flatMap quoteByte⟩

/-- The browser authorization URL built by `get_refresh_token`
(auth.py lines 199-202), applied to the already-suffixed client id. -/
def get_refresh_token_auth_url (redirect_uri client_id : String) : String :=
  "https://auth.tdameritrade.com/auth?response_type=code&redirect_uri=" ++
    pyQuote redirect_uri ++ "&client_id=" ++ pyQuote client_id

/-- The form body of the authorization-code exchange (auth.py lines
224-231).  The `code` field holds `context.code`, which is an optional
list of strings (see `AuthResponseContext`). -/
structure CodeExchangeData where
  grant_type : String
  refresh_token : String
  access_type : String
  code : Option (List String)
  client_id : String
  redirect_uri : String
deriving DecidableEq

/-- Builds the authorization-code exchange body from the suffixed client
id, the recorded code and the redirect URI. -/
def get_refresh_token_exchange_data (client_id : String) (code : Option (List String))
    (redirect_uri : String) : CodeExchangeData :=
  { grant_type := "authorization_code", refresh_token := "", access_type := "offline",
    code := code, client_id := client_id, redirect_uri := redirect_uri }

/-- The final token exchange of `get_refresh_token` (auth.py lines
220-235): POSTs the code grant and returns `res.json()` after
`res.raise_for_status()`. -/
def get_refresh_token_exchange (client_id : String) (code : Option (List String))
    (redirect_uri : String) (res : HttpResponse) : Except Exc TokenResponseJson :=
  match raise_for_status res with
  | .error e => .error e
  | .ok _ =>
    let _ := get_refresh_token_exchange_data client_id code redirect_uri
    .ok res.json

/-- Whether an embedded call raised `TDAPIClientAuthenticationException`. -/
def raisesAuthenticationError {α : Type} : Except Exc α → Bool
  | .error (.authenticationError _) => true
  | _ => false

/-- A prefix test on character lists (used to state substring facts). -/
def listIsPre : List Char → List Char → Bool
  | [], _ => true
  | _ :: _, [] => false
  | a :: as, b :: bs => a = b && listIsPre as bs

/-- Substring test on character lists: `sub` occurs contiguously in `hay`. -/
def containsSub : List Char → List Char → Bool
  | [], sub => listIsPre sub []
  | c :: t, sub => listIsPre sub (c :: t) || containsSub t sub

/-- A concrete 500 token-endpoint response used as a counterexample input. -/
def resp500 : HttpResponse := ⟨500, ⟨"tok", 600⟩⟩

/-- A concrete 301 token-endpoint response (non-2xx, yet not raised on by
`raise_for_status`) used as a counterexample input. -/
def resp301 : HttpResponse := ⟨301, ⟨"tok", 600⟩⟩

/-! ## Helper lemmas -/

theorem string_append_data (s t : String) : (s ++ t).data = s.data ++ t.data := by
  cases s; cases t; rfl

theorem plusToSpace_percent : plusToSpace '%' = '%' := by decide

theorem percentDecodeAux_fuel (f1 : Nat) : ∀ (f2 : Nat) (l : List Char),
    l.length ≤ f1 → l.length ≤ f2 → percentDecodeAux f1 l = percentDecodeAux f2 l := by
  induction f1 with
  | zero =>
    intro f2 l h1 _
    have : l = [] := List.eq_nil_of_length_eq_zero (Nat.le_zero.1 h1)
    subst this
    cases f2 <;> rfl
  | succ k ih =>
    intro f2 l h1 h2
    cases l with
    | nil => cases f2 <;> rfl
    | cons ch rest =>
      obtain ⟨m, rfl⟩ : ∃ m, f2 = m + 1 := by
        cases f2 with
        | zero => simp at h2
        | succ m => exact ⟨m, rfl⟩
      simp only [List.length_cons, Nat.add_le_add_iff_right] at h1 h2
      by_cases hch : ch = '%'
      · cases rest with
        | nil =>
          simp only [percentDecodeAux, hch, if_true]
          rw [ih m [] (by simp) (by simp)]
        | cons a rest1 =>
          cases rest1 with
          | nil =>
            simp only [percentDecodeAux, hch, if_true]
            rw [ih m [a] (by simpa using h1) (by simpa using h2)]
          | cons b rest2 =>
            simp only [List.length_cons] at h1 h2
            by_cases hhex : (isHexDigit a && isHexDigit b) = true
            · simp only [percentDecodeAux, hch, if_true, hhex]
              rw [ih m rest2 (by omega) (by omega)]
            · simp only [percentDecodeAux, hch, if_true, hhex, if_false]
              rw [ih m (a :: b :: rest2) (by simp; omega) (by simp; omega)]
              simp
      · simp only [percentDecodeAux, hch, if_false]
        rw [ih m rest h1 h2]

theorem percentDecode_cons_ne (ch : Char) (rest : List Char) (h : ¬(ch = '%')) :
    percentDecodeChars (ch :: rest) = ch :: percentDecodeChars rest := by
  show percentDecodeAux (ch :: rest).length (ch :: rest) = _
  simp only [List.length_cons, percentDecodeAux, h, if_false]
  rfl

theorem percentDecode_escape (a b : Char) (rest : List Char)
    (ha : isHexDigit a = true) (hb : isHexDigit b = true) :
    percentDecodeChars ('%' :: a :: b :: rest) =
      Char.ofNat (16 * hexVal a + hexVal b) :: percentDecodeChars rest := by
  show percentDecodeAux ('%' :: a :: b :: rest).length _ = _
  simp only [List.length_cons, percentDecodeAux, if_true, ha, hb, Bool.and_self]
  rw [percentDecodeAux_fuel (rest.length + 1 + 1) rest.length rest (by omega) (Nat.le_refl _)]
  rfl

theorem hexUpper_facts : ∀ k < 16, isHexDigit (hexUpper k) = true ∧ hexVal (hexUpper k) = k ∧
    plusToSpace (hexUpper k) = hexUpper k ∧ ¬(hexUpper k = '%') := by decide

theorem quoteUnreserved_facts : ∀ n < 128, quoteUnreservedByte n = true →
    plusToSpace (Char.ofNat n) = Char.ofNat n ∧ ¬(Char.ofNat n = '%') := by decide

theorem percentDecode_quoteByte (n : Nat) (hn : n < 128) (rest : List Char) :
    percentDecodeChars ((quoteByte n).map plusToSpace ++ rest) =
      Char.ofNat n :: percentDecodeChars rest := by
  by_cases hq : quoteUnreservedByte n = true
  · obtain ⟨h1, h2⟩ := quoteUnreserved_facts n hn hq
    simp only [quoteByte, if_pos hq, List.map_cons, List.map_nil, h1, List.cons_append,
      List.nil_append]
    exact percentDecode_cons_ne _ _ h2
  · have hd : n / 16 < 16 := by omega
    have hm : n % 16 < 16 := Nat.mod_lt _ (by omega)
    obtain ⟨ha1, ha2, ha3, _⟩ := hexUpper_facts _ hd
    obtain ⟨hb1, hb2, hb3, _⟩ := hexUpper_facts _ hm
    simp only [quoteByte, if_neg hq, List.map_cons, List.map_nil, plusToSpace_percent,
      ha3, hb3, List.cons_append, List.nil_append]
    rw [percentDecode_escape _ _ _ ha1 hb1, ha2, hb2, Nat.div_add_mod]

theorem decode_map_quote (l : List Char) (h : ∀ c ∈ l, c.toNat < 128) :
    percentDecodeChars (((l.flatMap utf8Bytes).flatMap quoteByte).map plusToSpace) = l := by
  induction l with
  | nil => rfl
  | cons c t ih =>
    have hc : c.toNat < 128 := h c (List.mem_cons_self c t)
    have ht : ∀ x ∈ t, x.toNat < 128 := fun x hx => h x (List.mem_cons_of_mem c hx)
    have hutf : utf8Bytes c = [c.toNat] := by
      simp [utf8Bytes, hc]
    rw [List.flatMap_cons, hutf]
    rw [show ([c.toNat] ++ t.flatMap utf8Bytes).flatMap quoteByte =
        quoteByte c.toNat ++ (t.flatMap utf8Bytes).flatMap quoteByte by
      simp [List.flatMap_append]]
    rw [List.map_append, percentDecode_quoteByte c.toNat hc, ih ht, Char.ofNat_toNat]

theorem unquote_plus_pyQuote (s : String) (h : ∀ c ∈ s.data, c.toNat < 128) :
    unquote_plus (pyQuote s) = s := by
  have hd := decode_map_quote s.data h
  cases s with
  | mk d => exact congrArg String.mk hd

theorem suffix_ascii : ∀ c ∈ "@AMER.OAUTHAP".data, c.toNat < 128 := by decide

/-! ## Claims -/

/-- C1 counterexample: at the concrete non-2xx statuses 500 and 301 the
claim fails: the 500 response makes both exchanges raise `HTTPError`
(never `TDAPIClientAuthenticationException`), and the 301 response (also
non-2xx) raises nothing at all and stores its body in the context. -/
theorem c1_counterexample_httperror_not_autherror :
    authenticate "c" "r" 0 resp500 = .error (.httpError 500) ∧
    raisesAuthenticationError (authenticate "c" "r" 0 resp500) = false ∧
    get_refresh_token_exchange ("c" ++ "@AMER.OAUTHAP") (some ["X"]) "https://localhost:8123"
      resp500 = .error (.httpError 500) ∧
    raisesAuthenticationError (get_refresh_token_exchange ("c" ++ "@AMER.OAUTHAP")
      (some ["X"]) "https://localhost:8123" resp500) = false ∧
    authenticate "c" "r" 0 resp301 =
      .ok { client_id := "c", refresh_token := "r", access_token := "tok",
            access_token_valid_until := 600 } := by
  decide

/-- C1 (amended): for every token-endpoint response with status in
400..599, both the refresh exchange (`authenticate`/`get_access_token`)
and the authorization-code exchange raise `requests.HTTPError` -- not
`TDAPIClientAuthenticationException` -- and no `TDAuthContext` is
produced, so no partial data is stored. -/
theorem c1_non_success_raises_httperror (client_id refresh_token redirect_uri : String)
    (code : Option (List String)) (now : Int) (res : HttpResponse)
    (h4 : 400 ≤ res.status) (h6 : res.status < 600) :
    authenticate client_id refresh_token now res = .error (.httpError res.status) ∧
    raisesAuthenticationError (authenticate client_id refresh_token now res) = false ∧
    get_refresh_token_exchange (client_id ++ "@AMER.OAUTHAP") code redirect_uri res =
      .error (.httpError res.status) ∧
    raisesAuthenticationError (get_refresh_token_exchange (client_id ++ "@AMER.OAUTHAP")
      code redirect_uri res) = false := by
  have hs : 400 ≤ res.status ∧ res.status < 600 := ⟨h4, h6⟩
  simp [authenticate, get_access_token, get_refresh_token_exchange, raise_for_status, hs,
    raisesAuthenticationError]

/-- C1 witness: the amended theorem applied at a concrete 404 response. -/
theorem c1_non_success_raises_httperror_witness :
    authenticate "c" "r" 7 ⟨404, ⟨"t", 9⟩⟩ = .error (.httpError 404) ∧
    get_refresh_token_exchange ("c" ++ "@AMER.OAUTHAP") none "u" ⟨404, ⟨"t", 9⟩⟩ =
      .error (.httpError 404) := by
  have h := c1_non_success_raises_httperror "c" "r" "u" none 7 ⟨404, ⟨"t", 9⟩⟩
    (by decide) (by decide)
  exact ⟨h.1, h.2.2.1⟩

/-- C2: while an access token is cached in the context, any number of
repeated API calls reuses exactly that token in the Bearer header and the
outgoing traffic contains no token-endpoint POST: the refresh POST exists
only in `authenticate`/`get_access_token`, which runs only to build a
context when none is cached. -/
theorem c2_cached_token_reused_no_refresh (ctx : TDAuthContext) (method path : String)
    (n : Nat) :
    repeatedCallEffects ctx method path n =
      List.replicate n (.apiRequest method (url_base ++ path)
        [("Authorization", "Bearer " ++ ctx.access_token)]) ∧
    (repeatedCallEffects ctx method path n).filter isTokenPost = [] := by
  induction n with
  | zero => exact ⟨rfl, rfl⟩
  | succ k ih =>
    refine ⟨?_, ?_⟩
    · simp [repeatedCallEffects, TDBase_call_effects, TDBase_auth_headers,
        List.replicate_succ, ih.1]
    · simp [repeatedCallEffects, TDBase_call_effects, TDBase_auth_headers, isTokenPost, ih.2]

/-- C3 (code bug): the callback GET to the root path with query
code=ABC123 does terminate the wait loop with no error recorded, but the
handler stores the whole `parse_qs` list, so `context.code` is the
one-element list containing ABC123 rather than the declared
`Optional[str]` string. -/
theorem c3_code_callback_stores_list :
    do_GET initialContext "/?code=ABC123" =
      ({ code := some ["ABC123"], error := none, error_description := none },
        .sendText 200
          "Got authentication code.\nProceed in calling Python program.\nYou can close this browser session.\n") ∧
    loopDone (do_GET initialContext "/?code=ABC123").1 = true ∧
    (do_GET initialContext "/?code=ABC123").1.error = none := by
  decide

/-- C4: the error callback records error=access_denied and the
plus-decoded description, terminates the wait loop, and the flow raises
`TDAPIClientAuthenticationException` whose message contains both fields
verbatim. -/
theorem c4_error_callback_raises_with_fields :
    (do_GET initialContext "/?error=access_denied&error_description=User+cancelled").1.error =
      some "access_denied" ∧
    (do_GET initialContext
        "/?error=access_denied&error_description=User+cancelled").1.error_description =
      some "User cancelled" ∧
    loopDone (do_GET initialContext
      "/?error=access_denied&error_description=User+cancelled").1 = true ∧
    get_refresh_token_check_error
        (do_GET initialContext "/?error=access_denied&error_description=User+cancelled").1 =
      .error (.authenticationError
        "Error during authentication. error=access_denied, error_description=User cancelled") ∧
    containsSub
      "Error during authentication. error=access_denied, error_description=User cancelled".data
      "access_denied".data = true ∧
    containsSub
      "Error during authentication. error=access_denied, error_description=User cancelled".data
      "User cancelled".data = true := by
  decide

/-- C5: every 2xx refresh exchange stores the response's access token and
sets the expiry to the call time plus `expires_in` seconds. -/
theorem c5_success_stores_token_and_expiry (client_id refresh_token : String) (now : Int)
    (res : HttpResponse) (h2 : 200 ≤ res.status) (h3 : res.status < 300) :
    authenticate client_id refresh_token now res =
      .ok { client_id := client_id, refresh_token := refresh_token,
            access_token := res.json.access_token,
            access_token_valid_until := now + res.json.expires_in } := by
  have hns : ¬(400 ≤ res.status ∧ res.status < 600) := by omega
  simp [authenticate, get_access_token, raise_for_status, hns]

/-- C5 witness: a concrete 200 exchange with expires_in 1800 at call time
1000 yields expiry 2800. -/
theorem c5_success_stores_token_and_expiry_witness :
    authenticate "cid" "rtok" 1000 ⟨200, ⟨"at", 1800⟩⟩ =
      .ok { client_id := "cid", refresh_token := "rtok", access_token := "at",
            access_token_valid_until := 2800 } := by
  have h := c5_success_stores_token_and_expiry "cid" "rtok" 1000 ⟨200, ⟨"at", 1800⟩⟩
    (by decide) (by decide)
  rw [h]
  decide

/-- C6: a callback whose path is off-root, or whose query string is empty
or carries neither code nor error, gets a 400 or 404 reply and leaves the
callback context untouched, so the wait loop keeps going; a subsequent
valid single-code callback still terminates the loop with the code
recorded. -/
theorem c6_invalid_callback_keeps_waiting (r v : String) (ctx : AuthResponseContext)
    (hr : (partitionQuery r).1 ≠ "/" ∨ (partitionQuery r).2 = "" ∨
      (qsLookup (parse_qsl (partitionQuery r).2) "code" = [] ∧
        qsLookup (parse_qsl (partitionQuery r).2) "error" = []))
    (hv1 : (partitionQuery v).1 = "/") (hv2 : (partitionQuery v).2 ≠ "")
    (hv3 : qsLookup (parse_qsl (partitionQuery v).2) "error" = [])
    (hv4 : (qsLookup (parse_qsl (partitionQuery v).2) "code").length = 1) :
    ((do_GET ctx r).1 = ctx ∧
      ((do_GET ctx r).2 = .sendError 400 ∨ (do_GET ctx r).2 = .sendError 404)) ∧
    runCallbacks initialContext [r, v] =
      { code := some (qsLookup (parse_qsl (partitionQuery v).2) "code"),
        error := none, error_description := none } ∧
    loopDone (runCallbacks initialContext [r, v]) = true := by
  have hstep : ∀ c : AuthResponseContext,
      (do_GET c r).1 = c ∧
        ((do_GET c r).2 = .sendError 400 ∨ (do_GET c r).2 = .sendError 404) := by
    intro c
    by_cases h1 : (partitionQuery r).1 ≠ "/" ∨ (partitionQuery r).2 = ""
    · constructor <;> simp [do_GET, h1]
    · rcases hr with h | h | h
      · exact absurd (Or.inl h) h1
      · exact absurd (Or.inr h) h1
      · have hcode : (qsLookup (parse_qsl (partitionQuery r).2) "code").length ≠ 1 := by
          rw [h.1]; decide
        constructor <;> simp [do_GET, h1, h.2, hcode]
  have hv : do_GET initialContext v =
      ({ code := some (qsLookup (parse_qsl (partitionQuery v).2) "code"),
         error := none, error_description := none },
       .sendText 200
         "Got authentication code.\nProceed in calling Python program.\nYou can close this browser session.\n") := by
    have hcond : ¬((partitionQuery v).1 ≠ "/" ∨ (partitionQuery v).2 = "") := by
      simp [hv1, hv2]
    have hlen : ¬((qsLookup (parse_qsl (partitionQuery v).2) "code").length ≠ 1) := by
      simp [hv4]
    simp [do_GET, hcond, hv3, hlen, initialContext]
  have hrun : runCallbacks initialContext [r, v] =
      { code := some (qsLookup (parse_qsl (partitionQuery v).2) "code"),
        error := none, error_description := none } := by
    rw [runCallbacks]
    rw [if_neg (by simp [initialContext, loopDone])]
    rw [(hstep initialContext).1]
    rw [runCallbacks]
    rw [if_neg (by simp [initialContext, loopDone])]
    rw [hv]
    rfl
  exact ⟨hstep ctx, hrun, by rw [hrun]; simp [loopDone]⟩

/-- C6 witness: an off-root callback followed by a valid code callback. -/
theorem c6_invalid_callback_keeps_waiting_witness :
    (do_GET initialContext "/unknown").1 = initialContext ∧
    runCallbacks initialContext ["/unknown", "/?code=XYZ"] =
      { code := some ["XYZ"], error := none, error_description := none } := by
  have h := c6_invalid_callback_keeps_waiting "/unknown" "/?code=XYZ" initialContext
    (by decide) (by decide) (by decide) (by decide) (by decide)
  refine ⟨h.1.1, ?_⟩
  rw [h.2.1]
  decide

/-- C7: for every authorization run, the self-signed certificate's subject
(and issuer) common name is the f-string host:port, and when the two
`utcnow` readings coincide (generation is a single instant) the validity
window is exactly 5 minutes (300 seconds). -/
theorem c7_cert_common_name_and_validity (host : String) (port : Nat) (now1 now2 : Int)
    (h : now2 = now1) :
    (get_refresh_token_cert host port now1 now2).subjectCommonName =
      host ++ ":" ++ toString port ∧
    (get_refresh_token_cert host port now1 now2).issuerCommonName =
      host ++ ":" ++ toString port ∧
    (get_refresh_token_cert host port now1 now2).notValidAfter -
      (get_refresh_token_cert host port now1 now2).notValidBefore = 300 := by
  refine ⟨rfl, rfl, ?_⟩
  show now2 + 5 * 60 - now1 = (300 : Int)
  omega

/-- C7 witness: the certificate parameters for localhost:8123 at one
concrete clock reading. -/
theorem c7_cert_common_name_and_validity_witness :
    (get_refresh_token_cert "localhost" 8123 5000 5000).subjectCommonName =
      "localhost:8123" ∧
    (get_refresh_token_cert "localhost" 8123 5000 5000).notValidAfter -
      (get_refresh_token_cert "localhost" 8123 5000 5000).notValidBefore = 300 := by
  have h := c7_cert_common_name_and_validity "localhost" 8123 5000 5000 rfl
  refine ⟨?_, h.2.2⟩
  rw [h.1]
  decide

/-- C8: the authorization URL embeds the percent-quoted suffixed client
id, the code-exchange body carries the same suffixed client id verbatim,
and for an ASCII client id the quoted URL value decodes back to exactly
that suffixed string, so both sends carry the identical value. -/
theorem c8_client_id_roundtrip (c redirect_uri : String) (code : Option (List String))
    (h : ∀ ch ∈ c.data, ch.toNat < 128) :
    get_refresh_token_auth_url redirect_uri (c ++ "@AMER.OAUTHAP") =
      "https://auth.tdameritrade.com/auth?response_type=code&redirect_uri=" ++
        pyQuote redirect_uri ++ "&client_id=" ++ pyQuote (c ++ "@AMER.OAUTHAP") ∧
    (get_refresh_token_exchange_data (c ++ "@AMER.OAUTHAP") code redirect_uri).client_id =
      c ++ "@AMER.OAUTHAP" ∧
    unquote_plus (pyQuote (c ++ "@AMER.OAUTHAP")) = c ++ "@AMER.OAUTHAP" := by
  refine ⟨rfl, rfl, ?_⟩
  apply unquote_plus_pyQuote
  intro ch hch
  rw [string_append_data] at hch
  rcases List.mem_append.1 hch with hm | hm
  · exact h ch hm
  · exact suffix_ascii ch hm

/-- C8 witness: the round trip at a concrete client id. -/
theorem c8_client_id_roundtrip_witness :
    unquote_plus (pyQuote ("myclient" ++ "@AMER.OAUTHAP")) = "myclient" ++ "@AMER.OAUTHAP" ∧
    (get_refresh_token_exchange_data ("myclient" ++ "@AMER.OAUTHAP") (some ["Z"])
      "https://localhost:8123").client_id = "myclient" ++ "@AMER.OAUTHAP" := by
  have h := c8_client_id_roundtrip "myclient" "https://localhost:8123" (some ["Z"])
    (by decide)
  exact ⟨h.2.2, h.2.1⟩

/-- C9: when a root-path query carries both an error and a code parameter,
`do_GET` takes the error branch and returns before reaching the code
branch: the first error value is recorded and `context.code` is left
untouched. -/
theorem c9_error_branch_precedes_code (ctx : AuthResponseContext) (r : String)
    (h1 : (partitionQuery r).1 = "/") (h2 : (partitionQuery r).2 ≠ "")
    (he : qsLookup (parse_qsl (partitionQuery r).2) "error" ≠ [])
    (hc : qsLookup (parse_qsl (partitionQuery r).2) "code" ≠ []) :
    (do_GET ctx r).1.code = ctx.code ∧
    (do_GET ctx r).1.error =
      some ((qsLookup (parse_qsl (partitionQuery r).2) "error").headD "") := by
  have hcond : ¬((partitionQuery r).1 ≠ "/" ∨ (partitionQuery r).2 = "") := by
    simp [h1, h2]
  constructor <;> simp [do_GET, hcond, he]

/-- C9 witness: a callback carrying both error and code records only the
error. -/
theorem c9_error_branch_precedes_code_witness :
    (do_GET initialContext "/?error=oops&code=IGNORED").1.code = none ∧
    (do_GET initialContext "/?error=oops&code=IGNORED").1.error = some "oops" := by
  have h := c9_error_branch_precedes_code initialContext "/?error=oops&code=IGNORED"
    (by decide) (by decide) (by decide) (by decide)
  refine ⟨h.1, ?_⟩
  rw [h.2]
  decide

/-- C10: a successful `authenticate` stores `client_id` and
`refresh_token` exactly as passed -- in particular the stored client id
carries no partner suffix; the suffix is appended only to the `client_id`
field of the token-endpoint form body. -/
theorem c10_context_fields_verbatim (client_id refresh_token : String) (now : Int)
    (res : HttpResponse) (ctx : TDAuthContext)
    (h : authenticate client_id refresh_token now res = .ok ctx) :
    ctx.client_id = client_id ∧ ctx.refresh_token = refresh_token ∧
    (get_access_token_data client_id refresh_token).client_id =
      client_id ++ "@AMER.OAUTHAP" := by
  by_cases hs : 400 ≤ res.status ∧ res.status < 600
  · simp [authenticate, get_access_token, raise_for_status, hs] at h
  · simp [authenticate, get_access_token, raise_for_status, hs] at h
    subst h
    exact ⟨rfl, rfl, rfl⟩

/-- C10 witness: a concrete successful call stores the unsuffixed inputs. -/
theorem c10_context_fields_verbatim_witness :
    ({ client_id := "cid2", refresh_token := "rtok2", access_token := "at2",
       access_token_valid_until := 50 } : TDAuthContext).client_id = "cid2" ∧
    ({ client_id := "cid2", refresh_token := "rtok2", access_token := "at2",
       access_token_valid_until := 50 } : TDAuthContext).refresh_token = "rtok2" ∧
    (get_access_token_data "cid2" "rtok2").client_id = "cid2" ++ "@AMER.OAUTHAP" :=
  c10_context_fields_verbatim "cid2" "rtok2" 20 ⟨204, ⟨"at2", 30⟩⟩ _ (by decide)
